import Mathlib

/-!
Shallow embedding of the record-ETL pipeline of the NWFWMD hydrologic
monitoring geodatabase scripts (`load_hydro_data.py`, `load_hydro_photos.py`).

Python strings are modelled as `String`; all character-level operations
(`str.lower`, `str.strip`, `str.split`, `in`, `str.startswith`, `str.replace`)
are re-implemented over `List Char` so that every definition is executable by
the kernel.  Python `None` is modelled by `Option`; a raised exception is
modelled by `Except PyError`.
-/

namespace Hydro

/-- Model of a raised Python exception: either a `ValueError` with its message,
or an `AttributeError` (e.g. calling `.strip()` on `None`). -/
inductive PyError where
  | valueError (msg : String)
  | attributeError
deriving DecidableEq, Repr

instance {ε α : Type} [DecidableEq ε] [DecidableEq α] : DecidableEq (Except ε α) :=
  fun x y =>
    match x, y with
    | .ok a, .ok b => if h : a = b then .isTrue (by rw [h]) else .isFalse (by simp [h])
    | .error a, .error b => if h : a = b then .isTrue (by rw [h]) else .isFalse (by simp [h])
    | .ok _, .error _ => .isFalse (by simp)
    | .error _, .ok _ => .isFalse (by simp)

/-! ## Python string primitives over `List Char` -/

/-- Python whitespace characters recognised by `str.strip()` (ASCII subset). -/
def isPySpace (c : Char) : Bool :=
  c == ' ' || c == '\t' || c == '\n' || c == '\r' || c == '\x0b' || c == '\x0c'

/-- `str.strip()` on a character list: drop whitespace on both ends. -/
def stripChars (l : List Char) : List Char :=
  ((l.dropWhile isPySpace).reverse.dropWhile isPySpace).reverse

/-- Python `s.strip()`. -/
def pyStrip (s : String) : String := String.mk (stripChars s.toList)

/-- ASCII lower-casing of one character, as used by the business rules. -/
def lowerChar (c : Char) : Char :=
  if 'A' ≤ c && c ≤ 'Z' then Char.ofNat (c.toNat + 32) else c

/-- Python `s.lower()` (ASCII subset). -/
def pyLower (s : String) : String := String.mk (s.toList.map lowerChar)

/-- Python substring containment `pat in s`. -/
def pyIn (pat s : String) : Bool := decide (pat.toList <:+: s.toList)

/-- Python `s.startswith(pat)`. -/
def pyStartsWith (s pat : String) : Bool := pat.toList.isPrefixOf s.toList

/-- Split a character list on a single separator character; mirrors Python
`s.split(sep)` for a one-character separator (keeps empty pieces). -/
def splitOnChar (sep : Char) : List Char → List (List Char)
  | [] => [[]]
  | c :: rest =>
    match splitOnChar sep rest with
    | [] => [[c]]
    | g :: gs => if c == sep then [] :: g :: gs else (c :: g) :: gs

/-- Python `s.split('|')` (the only split used by the loader). -/
def pySplit (s : String) (sep : Char) : List String :=
  (splitOnChar sep s.toList).map String.mk

/-- Python truthiness of a string: every non-empty string is truthy (so both
`"Yes"` and `"No"` are truthy). -/
def pyTruthy (s : String) : Bool := !(s == "")

/-- `load_hydro_data.isempty`: `None` or a whitespace-only string is empty. -/
def isempty : Option String → Bool
  | none => true
  | some s => stripChars s.toList == []

/-- `mg.none2blank`: replace `None` with the empty string. -/
def none2blank : Option String → String
  | none => ""
  | some s => s

/-- Python f-string formatting with format spec `:>06`: right-align in width
6, padding with zeros. -/
def pad6 (s : String) : String :=
  if s.length ≥ 6 then s
  else String.mk (List.replicate (6 - s.length) '0') ++ s

/-- Python `int(s)` on a string: strip whitespace, optional sign, digits.
(Underscore digit grouping is not modelled; no source value uses it.) -/
def pyInt (s : String) : Option Int :=
  let t := stripChars s.toList
  let (sign, digits) :=
    match t with
    | '-' :: rest => ((-1 : Int), rest)
    | '+' :: rest => ((1 : Int), rest)
    | _ => ((1 : Int), t)
  if digits ≠ [] && digits.all Char.isDigit then
    some (sign * (String.mk digits).toNat!)
  else
    none

/-! ## DataLogger (`load_hydro_data.py`, class `DataLogger`) -/

/-- Target attributes of a Data Logger record.  The source attribute `Type`
is named `type_` here because `Type` is reserved in Lean. -/
structure DataLogger where
  type_ : Option String
  SerialNumber : Option String
  LowBattery : Option Rat
  LowBatteryUnits : Option String
  IsActive : Option String
  Comments : Option String
deriving DecidableEq, Repr

/-- Data Logger types with a 12.5 Volt low-battery threshold. -/
def voltTypes : List String :=
  ["High Sierra 3208", "Sutron 9210", "Sutron CDMALink", "Sutron SatLink 3",
   "Sutron XLink 100", "Sutron XLink 500", "WaterLog H500XL", "WaterLog H522+",
   "WaterLog Storm"]

/-- Data Logger types with a 40 Percent low-battery threshold. -/
def percentTypes : List String :=
  ["In-Situ Level Troll 500", "In-Situ Level Troll 700",
   "In-Situ Rugged Baro Troll", "In-Situ Rugged Troll", "Keller CTD"]

/-- All Data Logger types known to `DataLogger.transform_lowbattery`. -/
def knownDataLoggerTypes : List String :=
  ["OTT Orpheus Mini"] ++ voltTypes ++ percentTypes ++ ["OTT Ecolog 1000"]

/-- `DataLogger.transform_lowbattery`: set `LowBattery` and `LowBatteryUnits`
from the hardwired type-keyed table; unknown type raises `ValueError`.
For `OTT Orpheus Mini` only the threshold is set and the units stay `None`. -/
def transform_lowbattery (t : String) : Except PyError (Option Rat × Option String) :=
  if t = "OTT Orpheus Mini" then
    .ok (some 4, none)
  else if t ∈ voltTypes then
    .ok (some (25/2 : Rat), some "Volts")
  else if t ∈ percentTypes then
    .ok (some 40, some "Percent")
  else if t = "OTT Ecolog 1000" then
    .ok (some 18000, some "mAh")
  else
    .error (.valueError ("Data Logger: Unknown low battery level / units for type " ++ t))

/-- `DataLogger.__init__` / `DataLogger.transform`: run the attribute
transforms in order (`isactive`, `serialnumber`, `type`, `lowbattery`).
Note `transform_type` tests `isempty(self._serial_number)` — not the type —
before raising "Missing type", exactly as the source does; a `None` type with
a non-empty serial number then raises `AttributeError` on `None.strip()`. -/
def mkDataLogger (type_ serial_number : Option String) : Except PyError DataLogger :=
  -- transform_isactive sets IsActive to Yes; transform_serialnumber
  if isempty serial_number then
    .error (.valueError "Data Logger: Missing serial number")
  else
    let sn := pyStrip (none2blank serial_number)
    -- transform_type re-tests the serial number (a slip in the source), so its
    -- "Missing type" branch is unreachable here
    if isempty serial_number then
      .error (.valueError "Data Logger: Missing type")
    else
      match type_ with
      | none => .error PyError.attributeError
      | some t =>
        let ty := pyStrip t
        -- transform_lowbattery
        match transform_lowbattery ty with
        | .error e => .error e
        | .ok lb =>
          .ok { type_ := some ty, SerialNumber := some sn, LowBattery := lb.1,
                LowBatteryUnits := lb.2, IsActive := some "Yes", Comments := none }

/-! ## Sensor (`load_hydro_data.py`, class `Sensor`) -/

/-- Target attributes of a Sensor record. -/
structure Sensor where
  type_ : Option String
  SerialNumber : Option String
  IsActive : Option String
  Comments : Option String
deriving DecidableEq, Repr

/-- `Sensor.__init__` / `Sensor.transform`: `isactive`, `serialnumber`,
`type`, in order. -/
def mkSensor (type_ serial_number : Option String) : Except PyError Sensor :=
  if isempty serial_number then
    .error (.valueError "Sensor: Missing serial number")
  else if isempty type_ then
    .error (.valueError "Sensor: Missing type")
  else
    .ok { type_ := some (pyStrip (none2blank type_)),
          SerialNumber := some (pyStrip (none2blank serial_number)),
          IsActive := some "Yes", Comments := none }

/-! ## MeasuringPoint (`load_hydro_data.py`, class `MeasuringPoint`) -/

/-- One fetched Measuring Point source row (the columns the transform reads).
`Name` and the local-assumed-datum flag are accessed with string methods
unconditionally in the source, so they are modelled as `String`; the elevation
arrives as a number (`isempty` is only `True` for `None` or blank strings), so
it is modelled as `Option Rat`. -/
structure MPSource where
  UniqueId : Option String
  Name : String
  Description : Option String
  ReferencePointPeriods_0_IsMeasuredAgainstLocalAssumedDatum : String
  ReferencePointPeriods_0_Elevation : Option Rat
  DisplayOrder : Option Int
  DecommissionedDate : Option String
deriving DecidableEq, Repr

/-- Target attributes of a Measuring Point record.  `AquariusID` holds the
normalized 32-hex-digit form produced by `uuid.UUID`. -/
structure MeasuringPoint where
  Name : Option String
  AquariusID : String
  Description : Option String
  Elevation : Option Rat
  IsActive : Option String
  DisplayOrder : Option Int
  Comments : Option String
deriving DecidableEq, Repr

/-- Replace every (non-overlapping, left-to-right) occurrence of `pat` in the
list, with explicit fuel for structural termination. -/
def replaceFuel (pat repl : List Char) : Nat → List Char → List Char
  | 0, l => l
  | _ + 1, [] => []
  | fuel + 1, c :: rest =>
    if pat.isPrefixOf (c :: rest) then
      repl ++ replaceFuel pat repl fuel ((c :: rest).drop pat.length)
    else
      c :: replaceFuel pat repl fuel rest

/-- Python `s.replace(pat, repl)` for non-empty `pat`. -/
def pyReplace (s pat repl : String) : String :=
  String.mk (replaceFuel pat.toList repl.toList (s.toList.length + 1) s.toList)

/-- Hexadecimal digit test. -/
def hexDigit (c : Char) : Bool :=
  c.isDigit || ('a' ≤ c && c ≤ 'f') || ('A' ≤ c && c ≤ 'F')

/-- Hex digits with single underscores allowed between digits, continuing a
literal whose first digit was already read (Python numeric-literal
grouping). -/
def intHexBody : List Char → Bool
  | [] => true
  | ['_'] => false
  | '_' :: c :: rest => hexDigit c && intHexBody rest
  | c :: rest => hexDigit c && intHexBody rest

/-- A non-empty run of hex digits with underscore grouping; must start with a
digit. -/
def intHexLit : List Char → Bool
  | [] => false
  | c :: rest => hexDigit c && intHexBody rest

/-- The part after an optional `0x`/`0X` prefix: Python allows one underscore
directly after the prefix. -/
def intHexAfterPrefix : List Char → Bool
  | '_' :: rest => intHexLit rest
  | l => intHexLit l

/-- A hex integer token with optional `0x`/`0X` prefix. -/
def intHexToken : List Char → Bool
  | '0' :: 'x' :: rest => intHexAfterPrefix rest
  | '0' :: 'X' :: rest => intHexAfterPrefix rest
  | l => intHexLit l

/-- Acceptance of Python `int(s, 16)`: surrounding whitespace, an optional
sign, an optional `0x` prefix, and underscore digit grouping are all
tolerated. -/
def pyIntHexOk (l : List Char) : Bool :=
  match stripChars l with
  | '+' :: rest => intHexToken rest
  | '-' :: rest => intHexToken rest
  | t => intHexToken t

/-- Python `uuid.UUID(s)`: remove `urn:` and `uuid:`, strip surrounding curly
braces, drop hyphens, require exactly 32 remaining characters, and parse them
with `int(hex, 16)` (which tolerates surrounding whitespace, a sign, a `0x`
prefix and underscore grouping).  Returns the lower-cased 32-character string,
or `none` when `ValueError` is raised. -/
def uuidParse (s : String) : Option String :=
  let h := pyReplace (pyReplace s "urn:" "") "uuid:" ""
  let l := h.toList
  let l := (((l.dropWhile fun c => c == '{' || c == '}').reverse.dropWhile
              fun c => c == '{' || c == '}').reverse).filter (· ≠ '-')
  if l.length = 32 && pyIntHexOk l then
    some (String.mk (l.map lowerChar))
  else
    none

/-- `MeasuringPoint.__init__` / `MeasuringPoint.transform`: `aquariusid`,
`description`, `displayorder`, `elevation`, `isactive`, `name`, in order. -/
def mkMeasuringPoint (sd : MPSource) : Except PyError MeasuringPoint :=
  -- transform_aquariusid
  if isempty sd.UniqueId then
    .error (.valueError "Measuring Point: Missing Aquarius ID")
  else
    match uuidParse (none2blank sd.UniqueId) with
    | none => .error (.valueError "badly formed hexadecimal UUID string")
    | some aqId =>
      -- transform_description, transform_displayorder
      let descr := if isempty sd.Description then none
                   else some (pyStrip (none2blank sd.Description))
      -- transform_elevation
      match sd.ReferencePointPeriods_0_Elevation with
      | none => .error (.valueError "Measuring Point: Missing elevation")
      | some elevation =>
        -- transform_isactive, transform_name
        let name := if stripChars sd.Name.toList == [] then none
                    else some (pyStrip sd.Name)
        .ok { Name := name, AquariusID := aqId, Description := descr,
              Elevation := some elevation, IsActive := some "Yes",
              DisplayOrder := sd.DisplayOrder, Comments := none }

/-- Business-rule rejection messages for one Measuring Point source row
(`Location.transform__measuringpoints`, rejection block). -/
def mpRejectMessages (sd : MPSource) : List String :=
  let flag := pyLower sd.ReferencePointPeriods_0_IsMeasuredAgainstLocalAssumedDatum
  let datumMsgs :=
    if flag = "true" then
      if pyStartsWith (pyLower sd.Name) "ref point is" then
        ["IsMeasuredAgainstLocalAssumedDatum is TRUE and Name starts with \x27Ref point is\x27"]
      else []
    else if flag = "false" then
      let n := pyStrip (pyLower sd.Name)
      if n = "land surface datum" then
        ["IsMeasuredAgainstLocalAssumedDatum is FALSE and Name is \x27Land Surface Datum\x27"]
      else if n = "navd88 0ft" then
        ["IsMeasuredAgainstLocalAssumedDatum is FALSE and Name is \x27NAVD88 0ft\x27"]
      else if n = "ngvd29 0ft" then
        ["IsMeasuredAgainstLocalAssumedDatum is FALSE and Name is \x27NGVD29 0ft\x27"]
      else if n = "slab" then
        ["IsMeasuredAgainstLocalAssumedDatum is FALSE and Name is \x27Slab\x27"]
      else []
    else
      ["IsMeasuredAgainstLocalAssumedDatum is \x27" ++
        sd.ReferencePointPeriods_0_IsMeasuredAgainstLocalAssumedDatum ++
        "\x27; expected TRUE or FALSE"]
  let decommMsgs :=
    match sd.DecommissionedDate with
    | none => []
    | some d => ["DecommissionedDate is not NULL: " ++ d]
  datumMsgs ++ decommMsgs

/-- The per-row loop of `Location.transform__measuringpoints`: each source row
is either rejected (counted) or passed to the `MeasuringPoint` constructor,
whose `ValueError` aborts the whole Location transform. -/
def processMPs : List MPSource → Except PyError (List MeasuringPoint × Nat)
  | [] => .ok ([], 0)
  | sd :: rest =>
    if mpRejectMessages sd = [] then
      match mkMeasuringPoint sd with
      | .error e => .error e
      | .ok mp =>
        match processMPs rest with
        | .error e => .error e
        | .ok (mps, rej) => .ok (mp :: mps, rej)
    else
      match processMPs rest with
      | .error e => .error e
      | .ok (mps, rej) => .ok (mps, rej + 1)

/-- `Location.transform__measuringpoints`: run the per-row loop, then require
at least one surviving Measuring Point when the Location has groundwater or
stage monitoring. -/
def transformMeasuringpoints (sources : List MPSource) (hasGroundwater hasStage : String) :
    Except PyError (List MeasuringPoint × Nat) :=
  match processMPs sources with
  | .error e => .error e
  | .ok (mps, rej) =>
    if mps.length = 0 then
      if hasGroundwater = "Yes" ∨ hasStage = "Yes" then
        .error (.valueError "Measuring Point: Measuring Point required for Location with groundwater or stage")
      else
        .ok (mps, rej)
    else
      .ok (mps, rej)

/-! ## Location (`load_hydro_data.py`, class `Location`) -/

/-- Source row from the Aquarius stations feature class (columns used).
The geometry payload is carried through opaquely. -/
structure AqStations where
  LocationIdentifier : Option String
  FLUWID : Option String
  Shape : Option String
deriving DecidableEq, Repr

/-- Source row from the District Monitoring spreadsheet (columns used). -/
structure DistrictMonitoring where
  Monitoring_Type : Option String
  Station_Name : Option String
  Project_Number : Option String
  Type_of_Recorder : Option String
  Recorder_Serial__ : Option String
  Type_of_Tipping_Bucket : Option String
  T_B__Serial__ : Option String
  Type_of_Sensor : Option String
  Sensor_Serial__ : Option String
deriving DecidableEq, Repr

/-- Fully transformed Location entity, with its related objects and the
rejected-Measuring-Point counter.  Capability flags are the literal
`"Yes"`/`"No"` strings the source stores. -/
structure Location where
  shape : Option String
  NWFID : String
  Name : Option String
  Project : Option Int
  FLUWID : Option String
  HasDataLogger : String
  HasSensor : String
  HasMeasuringPoint : String
  HasRainfall : String
  HasStage : String
  HasGroundwater : String
  HasConductivity : String
  HasADVM : String
  HasDischarge : String
  HasTemperature : String
  HasWaterQuality : String
  Comments : Option String
  data_logger : Option DataLogger
  sensors : List Sensor
  measuring_points : List MeasuringPoint
  rejected_measuring_point_count : Nat
deriving DecidableEq, Repr

/-- `Location.transform_hasadvm`. -/
def transform_hasadvm (mt : Option String) : String :=
  if pyIn "vel.ind" (pyLower (none2blank mt)) then "Yes" else "No"

/-- `Location.transform_hasconductivity`. -/
def transform_hasconductivity (mt : Option String) : String :=
  if pyIn "cond" (pyLower (none2blank mt)) then "Yes" else "No"

/-- `Location.transform_hasdischarge`. -/
def transform_hasdischarge (mt : Option String) : String :=
  if pyIn "discharge" (pyLower (none2blank mt)) then "Yes" else "No"

/-- `Location.transform_hasgroundwater`. -/
def transform_hasgroundwater (mt : Option String) : String :=
  if pyIn "gw level" (pyLower (none2blank mt)) then "Yes" else "No"

/-- `Location.transform_hasrainfall`. -/
def transform_hasrainfall (mt : Option String) : String :=
  if pyIn "rainfall" (pyLower (none2blank mt)) then "Yes" else "No"

/-- `Location.transform_hasstage`: the `d-stage` exclusion is tested before
the general `stage` substring. -/
def transform_hasstage (mt : Option String) : String :=
  let monitoring_type := pyLower (none2blank mt)
  if pyIn "d-stage" monitoring_type then "No"
  else if pyIn "stage" monitoring_type then "Yes"
  else "No"

/-- `Location.transform_hastemperature`. -/
def transform_hastemperature (mt : Option String) : String :=
  if pyIn "temp" (pyLower (none2blank mt)) then "Yes" else "No"

/-- `Location.transform_haswaterquality`. -/
def transform_haswaterquality (mt : Option String) : String :=
  if pyIn "wq" (pyLower (none2blank mt)) then "Yes" else "No"

/-- `Location.transform_nwfid`: missing identifier is fatal; otherwise
zero-pad to width 6. -/
def transform_nwfid (locId : Option String) : Except PyError String :=
  if isempty locId then
    .error (.valueError "Aquarius: Missing location identifier")
  else
    .ok (pad6 (none2blank locId))

/-- `Location.transform_project`: a non-empty value that fails `int()` only
logs a warning and leaves `Project` unset. -/
def transform_project (pn : Option String) : Option Int :=
  if isempty pn then none else pyInt (none2blank pn)

/-- `Location.transform__datalogger`: both recorder fields present builds a
`DataLogger` from the stripped values; exactly one present is a pairing
error; both absent requires no Data Logger unless the Location has ADVM or
rainfall monitoring. -/
def transformDatalogger (dm : DistrictMonitoring) (hasADVM hasRainfall : String) :
    Except PyError (Option DataLogger) :=
  let type_ := dm.Type_of_Recorder
  let serial_number := dm.Recorder_Serial__
  if !isempty type_ && !isempty serial_number then
    match mkDataLogger (some (pyStrip (none2blank type_)))
                       (some (pyStrip (none2blank serial_number))) with
    | .error e => .error e
    | .ok dl => .ok (some dl)
  else if xor (isempty type_) (isempty serial_number) then
    .error (.valueError
      ("District Monitoring: Data Logger must have both type and serial number"
        ++ "\nType: " ++ none2blank type_
        ++ "\nSerial number: " ++ none2blank serial_number))
  else if hasADVM = "Yes" ∨ hasRainfall = "Yes" then
    .error (.valueError "District Monitoring: Data Logger required for Location with ADVM or rainfall")
  else
    .ok none

/-- Tipping-bucket block of `Location.transform__sensors`. -/
def tbSensor (dm : DistrictMonitoring) (hasRainfall : String) :
    Except PyError (List Sensor) :=
  let tb_type := dm.Type_of_Tipping_Bucket
  let tb_serial_number := dm.T_B__Serial__
  if !isempty tb_type && !isempty tb_serial_number then
    match mkSensor (some (pyStrip (none2blank tb_type)))
                   (some (pyStrip (none2blank tb_serial_number))) with
    | .error e => .error e
    | .ok s => .ok [s]
  else if xor (isempty tb_type) (isempty tb_serial_number) then
    .error (.valueError
      ("District Monitoring: Tipping bucket must have both type and serial number"
        ++ "\nType: " ++ none2blank tb_type
        ++ "\nSerial number: " ++ none2blank tb_serial_number))
  else if hasRainfall = "Yes" then
    .error (.valueError "District Monitoring: Tipping bucket required for Location with rainfall")
  else
    .ok []

/-- The pairing/mismatch `ValueError` message of the other-sensors block. -/
def sensorListMsg (sensor_types sensor_serial_numbers : Option String) : String :=
  "District Monitoring: Sensor list must have type and serial number for each sensor"
    ++ "\nTypes: " ++ none2blank sensor_types
    ++ "\nSerial numbers: " ++ none2blank sensor_serial_numbers

/-- Build one `Sensor` per paired element of the two pipe-split lists. -/
def buildSensors : List String → List String → Except PyError (List Sensor)
  | [], _ => .ok []
  | _ :: _, [] => .ok []
  | t :: ts, s :: ss =>
    match mkSensor (some (pyStrip t)) (some (pyStrip s)) with
    | .error e => .error e
    | .ok sensor =>
      match buildSensors ts ss with
      | .error e => .error e
      | .ok sensors => .ok (sensor :: sensors)

/-- Other-sensors block of `Location.transform__sensors`: both pipe-delimited
lists present must split to equal lengths, else a fatal pairing error. -/
def otherSensors (dm : DistrictMonitoring) : Except PyError (List Sensor) :=
  let sensor_types := dm.Type_of_Sensor
  let sensor_serial_numbers := dm.Sensor_Serial__
  if !isempty sensor_types && !isempty sensor_serial_numbers then
    let sensor_type_list := pySplit (none2blank sensor_types) '|'
    let sensor_serial_number_list := pySplit (none2blank sensor_serial_numbers) '|'
    if sensor_type_list.length ≠ sensor_serial_number_list.length then
      .error (.valueError (sensorListMsg sensor_types sensor_serial_numbers))
    else
      buildSensors sensor_type_list sensor_serial_number_list
  else if xor (isempty sensor_types) (isempty sensor_serial_numbers) then
    .error (.valueError (sensorListMsg sensor_types sensor_serial_numbers))
  else
    .ok []

/-- `Location.transform__sensors`: tipping bucket first, then the
pipe-delimited other-sensor lists. -/
def transformSensors (dm : DistrictMonitoring) (hasRainfall : String) :
    Except PyError (List Sensor) :=
  match tbSensor dm hasRainfall with
  | .error e => .error e
  | .ok tb =>
    match otherSensors dm with
    | .error e => .error e
    | .ok others => .ok (tb ++ others)

/-- `Location.__init__`: run `Location.transform` (the fixed transform order
of the source), then the two whole-object integrity checks. -/
def mkLocation (aq : AqStations) (dm : DistrictMonitoring) (mps : List MPSource) :
    Except PyError Location :=
  -- transform_fluwid
  let fluwid := aq.FLUWID.map pyStrip
  -- capability flags (computed before the related-data transforms that use them)
  let hasADVM := transform_hasadvm dm.Monitoring_Type
  let hasConductivity := transform_hasconductivity dm.Monitoring_Type
  let hasDischarge := transform_hasdischarge dm.Monitoring_Type
  let hasGroundwater := transform_hasgroundwater dm.Monitoring_Type
  let hasRainfall := transform_hasrainfall dm.Monitoring_Type
  let hasStage := transform_hasstage dm.Monitoring_Type
  let hasTemperature := transform_hastemperature dm.Monitoring_Type
  let hasWaterQuality := transform_haswaterquality dm.Monitoring_Type
  -- transform_name
  let name := if isempty dm.Station_Name then none
              else some (pyStrip (none2blank dm.Station_Name))
  -- transform_nwfid
  match transform_nwfid aq.LocationIdentifier with
  | .error e => .error e
  | .ok nwfid =>
    -- transform_project, transform_shape
    let project := transform_project dm.Project_Number
    let shape := aq.Shape
    -- related data
    match transformDatalogger dm hasADVM hasRainfall with
    | .error e => .error e
    | .ok data_logger =>
      match transformMeasuringpoints mps hasGroundwater hasStage with
      | .error e => .error e
      | .ok (measuring_points, rejected) =>
        match transformSensors dm hasRainfall with
        | .error e => .error e
        | .ok sensors =>
          -- Location properties based on related data
          let hasDataLogger := if data_logger.isSome then "Yes" else "No"
          let hasMeasuringPoint := if measuring_points.length > 0 then "Yes" else "No"
          let hasSensor := if sensors.length > 0 then "Yes" else "No"
          -- multi-property integrity checks.  The first check is Python
          -- `not (self.HasRainfall or self.HasStage or ...)`: truthiness of
          -- the flag strings, and both "Yes" and "No" are truthy, so this
          -- guard can never fire (see the C3 theorem)
          if !(pyTruthy hasRainfall || pyTruthy hasStage || pyTruthy hasGroundwater
                || pyTruthy hasConductivity || pyTruthy hasADVM || pyTruthy hasDischarge
                || pyTruthy hasTemperature || pyTruthy hasWaterQuality) then
            .error (.valueError "District Monitoring: No monitoring type")
          else if data_logger = none ∧ sensors.length > 0 then
            .error (.valueError "District Monitoring: Location has Sensors without Data Logger")
          else
            .ok { shape := shape, NWFID := nwfid, Name := name, Project := project,
                  FLUWID := fluwid, HasDataLogger := hasDataLogger,
                  HasSensor := hasSensor, HasMeasuringPoint := hasMeasuringPoint,
                  HasRainfall := hasRainfall, HasStage := hasStage,
                  HasGroundwater := hasGroundwater, HasConductivity := hasConductivity,
                  HasADVM := hasADVM, HasDischarge := hasDischarge,
                  HasTemperature := hasTemperature, HasWaterQuality := hasWaterQuality,
                  Comments := none, data_logger := data_logger, sensors := sensors,
                  measuring_points := measuring_points,
                  rejected_measuring_point_count := rejected }

/-! ## Metrics (`load_hydro_data.py`, class `Metrics`) -/

/-- `Metrics._check_count`: `None` disables a counter; a negative or
non-integer count is a fatal error. -/
def checkCount : Option Int → Except PyError (Option Int)
  | none => .ok none
  | some n =>
    if n < 0 then
      .error (.valueError "Invalid Metrics count: Value cannot be negative")
    else
      .ok (some n)

/-- `Metrics._get_total`: `None` when both inputs are `None`, otherwise the
sum with a `None` input treated as zero (`(succeeded or 0) + (failed or 0)`). -/
def getTotal (succeeded failed : Option Int) : Option Int :=
  if succeeded = none ∧ failed = none then none
  else some (succeeded.getD 0 + failed.getD 0)

/-- Stored state of one `Metrics` instance: only the succeeded/failed
counters per entity kind are stored; every total is derived by `getTotal`
on read and has no setter. -/
structure Metrics where
  data_logger_succeeded : Option Int
  data_logger_failed : Option Int
  location_succeeded : Option Int
  location_failed : Option Int
  measuring_point_succeeded : Option Int
  measuring_point_failed : Option Int
  sensor_succeeded : Option Int
  sensor_failed : Option Int
deriving DecidableEq, Repr

/-! ## SourceData and IndexRecord (record wrappers) -/

/-- The loop of `SourceData.__init__` (`load_hydro_data.py`): add each
column/value pair, raising `ValueError` when the column name was already
seen. -/
def sourceDataAdd {α : Type} (acc : List (String × α)) :
    List (String × α) → Except PyError (List (String × α))
  | [] => .ok acc
  | (n, v) :: rest =>
    if (acc.map Prod.fst).contains n then
      .error (.valueError ("Column name " ++ n ++ " already exists"))
    else
      sourceDataAdd (acc ++ [(n, v)]) rest

/-- `SourceData.__init__`: wrap equal-length column-name and value lists. -/
def mkSourceData {α : Type} (fields : List String) (values : List α) :
    Except PyError (List (String × α)) :=
  sourceDataAdd [] (fields.zip values)

/-- `getattr` on a `SourceData`: the value stored under a column name
(well-defined because construction rejected duplicates). -/
def sourceDataGet {α : Type} (rec : List (String × α)) (n : String) : Option α :=
  (rec.find? fun p => p.1 == n).map Prod.snd

/-- `IndexRecord.__init__` (`load_hydro_photos.py`): `setattr` per zipped
field/value pair, with no duplicate check — construction never fails. -/
def mkIndexRecord {α : Type} (fields : List String) (values : List α) :
    List (String × α) :=
  fields.zip values

/-- `getattr` on an `IndexRecord`: repeated `setattr` means the last
assignment to a name wins. -/
def indexRecordGet {α : Type} (rec : List (String × α)) (n : String) : Option α :=
  ((rec.filter fun p => p.1 == n).getLast?).map Prod.snd

/-! ## Loader driver (`load_hydro_data.load_data`, write phase of one row) -/

/-- Output-metrics counters of `load_data` (all enabled, hence `Nat`). -/
structure OutputMetrics where
  location_succeeded : Nat
  location_failed : Nat
  data_logger_succeeded : Nat
  data_logger_failed : Nat
  sensor_succeeded : Nat
  sensor_failed : Nat
  measuring_point_succeeded : Nat
  measuring_point_failed : Nat
deriving DecidableEq, Repr

/-- Whether each geodatabase write call of one row's transaction succeeds
(the external store is an oracle). -/
structure WriteOutcome where
  locationOk : Bool
  dataLoggerOk : Bool
  sensorsOk : Bool
  measuringPointsOk : Bool
deriving DecidableEq, Repr

/-- The cascading failure increments applied by the Data Logger, Sensors and
Measuring Points failure branches of `load_data` (each rolls back the
transaction and falls through to the next row). -/
def cascadeFail (loc : Location) (m : OutputMetrics) : OutputMetrics :=
  { m with location_failed := m.location_failed + 1
         , data_logger_failed := m.data_logger_failed + 1
         , sensor_failed := m.sensor_failed + loc.sensors.length
         , measuring_point_failed := m.measuring_point_failed + loc.measuring_points.length }

/-- Write phase of one source row in `load_data`: open a transaction, write
Location, Data Logger (if any), Sensors (if any), Measuring Points (if any);
on any failure roll back and update the output failure counters as the
corresponding `except` branch does; on success commit and update the success
counters.  Returns the updated output metrics and whether the transaction
committed (`false` means it was rolled back and the driver continued with
the next row). -/
def processRow (loc : Location) (w : WriteOutcome) (m : OutputMetrics) :
    OutputMetrics × Bool :=
  if ¬w.locationOk then
    ({ m with location_failed := m.location_failed + 1 }, false)
  else if loc.data_logger.isSome ∧ ¬w.dataLoggerOk then
    (cascadeFail loc m, false)
  else if loc.sensors.length > 0 ∧ ¬w.sensorsOk then
    (cascadeFail loc m, false)
  else if loc.measuring_points.length > 0 ∧ ¬w.measuringPointsOk then
    (cascadeFail loc m, false)
  else
    ({ m with location_succeeded := m.location_succeeded + 1
            , data_logger_succeeded :=
                m.data_logger_succeeded + (if loc.data_logger.isSome then 1 else 0)
            , sensor_succeeded := m.sensor_succeeded + loc.sensors.length
            , measuring_point_succeeded :=
                m.measuring_point_succeeded + loc.measuring_points.length }, true)

/-! ## Attachment loader (`load_hydro_photos.py`, class `Attachment`) -/

/-- One row of a geodatabase attachment table (the columns the loader
queries and inserts; the binary payload and generated ids are omitted). -/
structure AttachRow where
  rel_globalid : String
  att_name : String
  keywords : String
deriving DecidableEq, Repr

/-- The existence test of `Attachment.check_target`: any attachment with the
same parent GlobalID and file name. -/
def attachExists (store : List AttachRow) (rel_globalid att_name : String) : Bool :=
  store.any fun r => r.rel_globalid == rel_globalid && r.att_name == att_name

/-- `Attachment.check_target`: raise `ValueError` when a same-name attachment
already exists on the parent row. -/
def checkTarget (store : List AttachRow) (table_name rel_globalid file_name : String) :
    Except PyError Unit :=
  if attachExists store rel_globalid file_name then
    .error (.valueError
      ("Attachment already exists for:"
        ++ "\n\tTable: " ++ table_name
        ++ "\n\tGlobal ID: " ++ rel_globalid
        ++ "\n\tFile name: " ++ file_name))
  else
    .ok ()

/-- `Attachment.load`: for each resolved target GlobalID, collect a duplicate
error (and skip the insert) when `check_target` raises, otherwise insert one
attachment row; errors never abort the remaining targets. -/
def loadAttachments (store : List AttachRow)
    (rel_globalids : List String) (table_name file_name keywords : String) :
    List PyError × List AttachRow :=
  match rel_globalids with
  | [] => ([], store)
  | g :: rest =>
    match checkTarget store table_name g file_name with
    | .error e =>
      ((e :: (loadAttachments store rest table_name file_name keywords).1),
       (loadAttachments store rest table_name file_name keywords).2)
    | .ok _ =>
      loadAttachments
        (store ++ [{ rel_globalid := g, att_name := file_name,
                     keywords := keywords }])
        rest table_name file_name keywords

/-- Number of attachments with the given parent GlobalID and file name. -/
def countAttach (store : List AttachRow) (rel_globalid att_name : String) : Nat :=
  (store.filter fun r => r.rel_globalid == rel_globalid && r.att_name == att_name).length

/-! ## Theorems -/

/-! ### Shared helper lemmas -/

lemma stripChars_eq_rdropWhile (l : List Char) :
    stripChars l = List.rdropWhile isPySpace (l.dropWhile isPySpace) := rfl

lemma dropWhile_stripChars (l : List Char) :
    (stripChars l).dropWhile isPySpace = stripChars l := by
  rw [stripChars_eq_rdropWhile, List.dropWhile_eq_self_iff]
  intro hl hp
  have hpre := List.rdropWhile_prefix isPySpace (l.dropWhile isPySpace)
  have hm : 0 < (l.dropWhile isPySpace).length :=
    lt_of_lt_of_le hl hpre.length_le
  have hget : (List.rdropWhile isPySpace (l.dropWhile isPySpace)).get ⟨0, hl⟩ =
      (l.dropWhile isPySpace).get ⟨0, hm⟩ := by
    simpa [List.get_eq_getElem] using
      @List.IsPrefix.getElem _ _ _ hpre 0 (by simpa using hl)
  rw [hget] at hp
  exact List.dropWhile_get_zero_not isPySpace l hm hp

lemma stripChars_idem (l : List Char) : stripChars (stripChars l) = stripChars l := by
  rw [stripChars_eq_rdropWhile (stripChars l), dropWhile_stripChars,
    stripChars_eq_rdropWhile l, List.rdropWhile_idempotent]

lemma pyStrip_idem (s : String) : pyStrip (pyStrip s) = pyStrip s := by
  show String.mk (stripChars (stripChars s.toList)) = String.mk (stripChars s.toList)
  rw [stripChars_idem]

lemma isempty_some_pyStrip (s : String) :
    isempty (some (pyStrip s)) = isempty (some s) := by
  show (stripChars (stripChars s.toList) == []) = (stripChars s.toList == [])
  rw [stripChars_idem]

/-- `transform_lowbattery` succeeds only on the hardwired type table. -/
lemma transform_lowbattery_ok_mem {ty : String} {p : Option Rat × Option String}
    (h : transform_lowbattery ty = .ok p) : ty ∈ knownDataLoggerTypes := by
  unfold transform_lowbattery at h
  split_ifs at h with h1 h2 h3 h4
  · rw [h1]; decide
  · simp only [knownDataLoggerTypes, List.mem_append]; tauto
  · simp only [knownDataLoggerTypes, List.mem_append]; tauto
  · rw [h4]; decide

/-- `transform_lowbattery` succeeds on every type of the hardwired table. -/
lemma transform_lowbattery_ok_of_mem {ty : String}
    (hmem : ty ∈ knownDataLoggerTypes) : (transform_lowbattery ty).isOk = true := by
  unfold transform_lowbattery
  simp only [knownDataLoggerTypes, List.mem_append, List.mem_cons,
    List.not_mem_nil, or_false] at hmem
  rcases hmem with h1 | h2 | h3 | h4 <;>
    split_ifs <;> simp_all [Except.isOk, Except.toBool]

/-- Inversion of a successful `mkDataLogger`. -/
lemma mkDataLogger_ok_inv {t s : Option String} {dl : DataLogger}
    (h : mkDataLogger t s = .ok dl) :
    ∃ t' lb, t = some t' ∧ isempty s = false ∧
      transform_lowbattery (pyStrip t') = .ok lb ∧
      dl = { type_ := some (pyStrip t'),
             SerialNumber := some (pyStrip (none2blank s)),
             LowBattery := lb.1, LowBatteryUnits := lb.2,
             IsActive := some "Yes", Comments := none } := by
  unfold mkDataLogger at h
  by_cases hs : isempty s = true
  · simp [hs] at h
  · simp only [Bool.not_eq_true] at hs
    rw [hs] at h
    simp only [Bool.false_eq_true, if_false] at h
    split at h
    · simp at h
    · rename_i t'
      split at h
      · simp at h
      · rename_i lb hlb
        simp only [Except.ok.injEq] at h
        exact ⟨t', lb, rfl, hs, hlb, h.symm⟩

/-- `mkDataLogger` succeeds whenever both inputs are non-empty and the
stripped type is in the table. -/
lemma mkDataLogger_ok_of_known {t s : Option String}
    (hs : isempty s = false)
    (hmem : pyStrip (none2blank t) ∈ knownDataLoggerTypes) :
    (mkDataLogger (some (pyStrip (none2blank t)))
      (some (pyStrip (none2blank s)))).isOk = true := by
  have hse : isempty (some (pyStrip (none2blank s))) = false := by
    cases s with
    | none => simp [isempty] at hs
    | some str => rw [isempty_some_pyStrip]; exact hs
  have hmem' : pyStrip (pyStrip (none2blank t)) ∈ knownDataLoggerTypes := by
    rwa [pyStrip_idem]
  unfold mkDataLogger
  rw [hse]
  simp only [Bool.false_eq_true, if_false]
  cases hlb : transform_lowbattery (pyStrip (pyStrip (none2blank t))) with
  | error e =>
    have := transform_lowbattery_ok_of_mem hmem'
    rw [hlb] at this
    simp [Except.isOk, Except.toBool] at this
  | ok lb => simp [Except.isOk, Except.toBool]

/-- C10: `mkDataLogger` succeeds only for the hardwired type table
`knownDataLoggerTypes`; for `OTT Orpheus Mini` the threshold is 4 with no
units; a recorder with both type and serial number present but an unknown
type makes the Data Logger transform of the owning Location fail, so the
Location is rejected. -/
theorem C10_datalogger_known_types :
    (∀ (t s : Option String) (dl : DataLogger), mkDataLogger t s = .ok dl →
      ∃ ty, dl.type_ = some ty ∧ ty ∈ knownDataLoggerTypes) ∧
    mkDataLogger (some "OTT Orpheus Mini") (some "123") =
      .ok { type_ := some "OTT Orpheus Mini", SerialNumber := some "123",
            LowBattery := some 4, LowBatteryUnits := none,
            IsActive := some "Yes", Comments := none } ∧
    transformDatalogger
      { Monitoring_Type := some "Stage", Station_Name := none,
        Project_Number := none, Type_of_Recorder := some "Acme 9000",
        Recorder_Serial__ := some "7", Type_of_Tipping_Bucket := none,
        T_B__Serial__ := none, Type_of_Sensor := none, Sensor_Serial__ := none }
      "No" "No" =
      .error (.valueError
        "Data Logger: Unknown low battery level / units for type Acme 9000") ∧
    (mkLocation
      { LocationIdentifier := some "8495", FLUWID := none, Shape := none }
      { Monitoring_Type := some "Stage", Station_Name := none,
        Project_Number := none, Type_of_Recorder := some "Acme 9000",
        Recorder_Serial__ := some "7", Type_of_Tipping_Bucket := none,
        T_B__Serial__ := none, Type_of_Sensor := none, Sensor_Serial__ := none }
      []).isOk = false := by
  refine ⟨?_, by decide, by decide, by decide⟩
  intro t s dl h
  obtain ⟨t', lb, _, _, hlb, hdl⟩ := mkDataLogger_ok_inv h
  exact ⟨pyStrip t', by rw [hdl], transform_lowbattery_ok_mem hlb⟩

/-- C10 witness: the universally quantified part applied to a concrete
successful construction. -/
theorem C10_datalogger_known_types_witness :
    ∃ ty, ({ type_ := some "OTT Orpheus Mini", SerialNumber := some "123",
             LowBattery := some 4, LowBatteryUnits := none,
             IsActive := some "Yes", Comments := none } : DataLogger).type_ =
            some ty ∧ ty ∈ knownDataLoggerTypes :=
  C10_datalogger_known_types.1 (some "OTT Orpheus Mini") (some "123") _ (by decide)

/-- The per-row Measuring Point loop accounts for every input row: each is
either accepted or counted as rejected. -/
lemma processMPs_ok_length :
    ∀ (l : List MPSource) (mps : List MeasuringPoint) (rej : Nat),
      processMPs l = .ok (mps, rej) → mps.length + rej = l.length := by
  intro l
  induction l with
  | nil =>
    intro mps rej h
    simp only [processMPs, Except.ok.injEq, Prod.mk.injEq] at h
    obtain ⟨hm, hr⟩ := h
    subst hm; subst hr
    simp
  | cons sd rest ih =>
    intro mps rej h
    simp only [processMPs] at h
    split at h
    · split at h
      · simp at h
      · split at h
        · simp at h
        · rename_i mp hmp mps' rej' hrest
          simp only [Except.ok.injEq, Prod.mk.injEq] at h
          obtain ⟨hm, hr⟩ := h
          subst hm; subst hr
          have := ih _ _ hrest
          simp only [List.length_cons]
          omega
    · split at h
      · simp at h
      · rename_i mps' rej' hrest
        simp only [Except.ok.injEq, Prod.mk.injEq] at h
        obtain ⟨hm, hr⟩ := h
        subst hm; subst hr
        have := ih _ _ hrest
        simp only [List.length_cons]
        omega

/-- Inversion of a successful `transformMeasuringpoints`. -/
lemma transformMeasuringpoints_ok_inv {src : List MPSource} {gw st : String}
    {mps : List MeasuringPoint} {rej : Nat}
    (h : transformMeasuringpoints src gw st = .ok (mps, rej)) :
    processMPs src = .ok (mps, rej) ∧
      ((gw = "Yes" ∨ st = "Yes") → 0 < mps.length) := by
  unfold transformMeasuringpoints at h
  split at h
  · simp at h
  · rename_i mps' rej' hp
    split at h
    · split at h
      · simp at h
      · rename_i hlen hflags
        simp only [Except.ok.injEq, Prod.mk.injEq] at h
        obtain ⟨hm, hr⟩ := h
        subst hm; subst hr
        exact ⟨hp, fun hf => absurd hf hflags⟩
    · rename_i hlen
      simp only [Except.ok.injEq, Prod.mk.injEq] at h
      obtain ⟨hm, hr⟩ := h
      subst hm; subst hr
      exact ⟨hp, fun _ => Nat.pos_of_ne_zero hlen⟩

/-- Inversion of a successful `mkLocation`: every fallible transform
succeeded, the integrity guard held, and the record fields are the computed
values. -/
lemma mkLocation_ok_inv {aq : AqStations} {dm : DistrictMonitoring}
    {mps : List MPSource} {loc : Location}
    (h : mkLocation aq dm mps = .ok loc) :
    transformMeasuringpoints mps (transform_hasgroundwater dm.Monitoring_Type)
        (transform_hasstage dm.Monitoring_Type) =
      .ok (loc.measuring_points, loc.rejected_measuring_point_count) ∧
    loc.HasRainfall = transform_hasrainfall dm.Monitoring_Type ∧
    loc.HasStage = transform_hasstage dm.Monitoring_Type ∧
    loc.HasGroundwater = transform_hasgroundwater dm.Monitoring_Type ∧
    loc.HasConductivity = transform_hasconductivity dm.Monitoring_Type ∧
    loc.HasADVM = transform_hasadvm dm.Monitoring_Type ∧
    loc.HasDischarge = transform_hasdischarge dm.Monitoring_Type ∧
    loc.HasTemperature = transform_hastemperature dm.Monitoring_Type ∧
    loc.HasWaterQuality = transform_haswaterquality dm.Monitoring_Type := by
  simp only [mkLocation] at h
  split at h
  · simp at h
  · split at h
    · simp at h
    · split at h
      · simp at h
      · split at h
        · simp at h
        · split at h
          · simp at h
          · split at h
            · simp at h
            · simp only [Except.ok.injEq] at h
              subst h
              refine ⟨?_, rfl, rfl, rfl, rfl, rfl, rfl, rfl, rfl⟩
              assumption

/-- Source rows with no recognized monitoring type for the C3 evaluation. -/
def aqC3 : AqStations :=
  { LocationIdentifier := some "8495", FLUWID := none, Shape := none }

def dmC3 : DistrictMonitoring :=
  { Monitoring_Type := none, Station_Name := none, Project_Number := none,
    Type_of_Recorder := none, Recorder_Serial__ := none,
    Type_of_Tipping_Bucket := none, T_B__Serial__ := none,
    Type_of_Sensor := none, Sensor_Serial__ := none }

/-- The Location the program constructs from `aqC3`/`dmC3`: every capability
flag is `"No"`. -/
def locC3 : Location :=
  { shape := none, NWFID := "008495", Name := none, Project := none,
    FLUWID := none, HasDataLogger := "No", HasSensor := "No",
    HasMeasuringPoint := "No", HasRainfall := "No", HasStage := "No",
    HasGroundwater := "No", HasConductivity := "No", HasADVM := "No",
    HasDischarge := "No", HasTemperature := "No", HasWaterQuality := "No",
    Comments := none, data_logger := none, sensors := [],
    measuring_points := [], rejected_measuring_point_count := 0 }

/-- C3: the code violates the claim.  The no-monitoring-type check of
`Location.__init__` is `not (self.HasRainfall or self.HasStage or ...)` on
flag values that are always the strings `"Yes"` or `"No"` — both truthy in
Python — so the guard can never fire: a source row with no recognized
monitoring type constructs a Location with every capability flag `"No"`
instead of failing with the intended validation error.  The last conjunct
shows each flag transform always yields a truthy string, so the guard is dead
on every input. -/
theorem C3_no_monitoring_type_guard_dead :
    mkLocation aqC3 dmC3 [] = .ok locC3 ∧
    (locC3.HasRainfall = "No" ∧ locC3.HasStage = "No" ∧
     locC3.HasGroundwater = "No" ∧ locC3.HasConductivity = "No" ∧
     locC3.HasADVM = "No" ∧ locC3.HasDischarge = "No" ∧
     locC3.HasTemperature = "No" ∧ locC3.HasWaterQuality = "No" ∧
     locC3.HasDataLogger = "No" ∧ locC3.HasSensor = "No" ∧
     locC3.HasMeasuringPoint = "No") ∧
    (∀ mt : Option String,
      pyTruthy (transform_hasrainfall mt) = true ∧
      pyTruthy (transform_hasstage mt) = true ∧
      pyTruthy (transform_hasgroundwater mt) = true ∧
      pyTruthy (transform_hasconductivity mt) = true ∧
      pyTruthy (transform_hasadvm mt) = true ∧
      pyTruthy (transform_hasdischarge mt) = true ∧
      pyTruthy (transform_hastemperature mt) = true ∧
      pyTruthy (transform_haswaterquality mt) = true) := by
  refine ⟨by decide, by decide, ?_⟩
  intro mt
  refine ⟨?_, ?_, ?_, ?_, ?_, ?_, ?_, ?_⟩ <;>
    simp only [transform_hasrainfall, transform_hasstage,
      transform_hasgroundwater, transform_hasconductivity, transform_hasadvm,
      transform_hasdischarge, transform_hastemperature,
      transform_haswaterquality] <;>
    split_ifs <;> rfl

/-- C6: in every successfully constructed Location, accepted plus rejected
Measuring Points equal the input record count, and a Location with
groundwater or stage monitoring has at least one surviving Measuring
Point. -/
theorem C6_measuring_point_accounting :
    ∀ (aq : AqStations) (dm : DistrictMonitoring) (srcmps : List MPSource)
      (loc : Location), mkLocation aq dm srcmps = .ok loc →
      loc.measuring_points.length + loc.rejected_measuring_point_count =
        srcmps.length ∧
      ((loc.HasGroundwater = "Yes" ∨ loc.HasStage = "Yes") →
        0 < loc.measuring_points.length) := by
  intro aq dm srcmps loc h
  obtain ⟨htm, _, hS, hG, _⟩ := mkLocation_ok_inv h
  obtain ⟨hp, hflags⟩ := transformMeasuringpoints_ok_inv htm
  refine ⟨processMPs_ok_length _ _ _ hp, ?_⟩
  intro hcase
  apply hflags
  rw [← hG, ← hS]
  exact hcase

/-- Source rows for the C6 witness Location. -/
def aqC6 : AqStations :=
  { LocationIdentifier := some "8495", FLUWID := none, Shape := some "PT" }

def dmC6 : DistrictMonitoring :=
  { Monitoring_Type := some "Stage", Station_Name := some "Gauge X",
    Project_Number := none, Type_of_Recorder := none, Recorder_Serial__ := none,
    Type_of_Tipping_Bucket := none, T_B__Serial__ := none,
    Type_of_Sensor := none, Sensor_Serial__ := none }

def mpsC6 : List MPSource :=
  [{ UniqueId := some "12345678123456781234567812345678",
     Name := "Staff Gauge A", Description := none,
     ReferencePointPeriods_0_IsMeasuredAgainstLocalAssumedDatum := "FALSE",
     ReferencePointPeriods_0_Elevation := some 1, DisplayOrder := none,
     DecommissionedDate := none },
   { UniqueId := some "12345678123456781234567812345679",
     Name := "NAVD88 0ft", Description := none,
     ReferencePointPeriods_0_IsMeasuredAgainstLocalAssumedDatum := "FALSE",
     ReferencePointPeriods_0_Elevation := some 2, DisplayOrder := none,
     DecommissionedDate := none }]

/-- The Location produced from the C6 witness rows: one Measuring Point
accepted, one (`NAVD88 0ft`) rejected. -/
def locC6 : Location :=
  { shape := some "PT", NWFID := "008495", Name := some "Gauge X",
    Project := none, FLUWID := none, HasDataLogger := "No", HasSensor := "No",
    HasMeasuringPoint := "Yes", HasRainfall := "No", HasStage := "Yes",
    HasGroundwater := "No", HasConductivity := "No", HasADVM := "No",
    HasDischarge := "No", HasTemperature := "No", HasWaterQuality := "No",
    Comments := none, data_logger := none, sensors := [],
    measuring_points :=
      [{ Name := some "Staff Gauge A",
         AquariusID := "12345678123456781234567812345678",
         Description := none, Elevation := some 1, IsActive := some "Yes",
         DisplayOrder := none, Comments := none }],
    rejected_measuring_point_count := 1 }

/-- C6 witness: the theorem applied to a concrete two-row input in which one
Measuring Point is accepted and one rejected. -/
theorem C6_measuring_point_accounting_witness :
    locC6.measuring_points.length + locC6.rejected_measuring_point_count = 2 ∧
    ((locC6.HasGroundwater = "Yes" ∨ locC6.HasStage = "Yes") →
      0 < locC6.measuring_points.length) :=
  C6_measuring_point_accounting aqC6 dmC6 mpsC6 locC6 (by decide)

/-- C5: when both pipe-delimited other-sensor lists are present and split to
different lengths, the Location's sensor transform raises the fatal pairing
error (never truncating); concretely, types `"A|B"` with serials `"1"`
fail. -/
theorem C5_sensor_list_length_mismatch :
    (∀ (dm : DistrictMonitoring) (hasRainfall : String) (tb : List Sensor),
      tbSensor dm hasRainfall = .ok tb →
      isempty dm.Type_of_Sensor = false →
      isempty dm.Sensor_Serial__ = false →
      (pySplit (none2blank dm.Type_of_Sensor) '|').length ≠
        (pySplit (none2blank dm.Sensor_Serial__) '|').length →
      transformSensors dm hasRainfall =
        .error (.valueError (sensorListMsg dm.Type_of_Sensor dm.Sensor_Serial__))) ∧
    pySplit "A|B" '|' = ["A", "B"] ∧
    otherSensors
      { Monitoring_Type := none, Station_Name := none, Project_Number := none,
        Type_of_Recorder := none, Recorder_Serial__ := none,
        Type_of_Tipping_Bucket := none, T_B__Serial__ := none,
        Type_of_Sensor := some "A|B", Sensor_Serial__ := some "1" } =
      .error (.valueError (sensorListMsg (some "A|B") (some "1"))) := by
  refine ⟨?_, by decide, by decide⟩
  intro dm hasRainfall tb htb ht hs hlen
  unfold transformSensors
  rw [htb]
  have hos : otherSensors dm =
      .error (.valueError (sensorListMsg dm.Type_of_Sensor dm.Sensor_Serial__)) := by
    simp only [otherSensors]
    rw [ht, hs]
    simp only [Bool.not_false, Bool.and_self, if_true]
    rw [if_pos hlen]
  rw [hos]

/-- C5 witness: the theorem applied to the concrete mismatched lists. -/
theorem C5_sensor_list_length_mismatch_witness :
    transformSensors
      { Monitoring_Type := none, Station_Name := none, Project_Number := none,
        Type_of_Recorder := none, Recorder_Serial__ := none,
        Type_of_Tipping_Bucket := none, T_B__Serial__ := none,
        Type_of_Sensor := some "A|B", Sensor_Serial__ := some "1" } "No" =
      .error (.valueError (sensorListMsg (some "A|B") (some "1"))) :=
  C5_sensor_list_length_mismatch.1 _ "No" [] (by decide) (by decide) (by decide)
    (by decide)

/-- C4 counterexample: a recorder with both type and serial number present
(neither empty) whose type is not in the hardwired table makes Data Logger
construction fail, contradicting the claim that construction succeeds
whenever both values are present. -/
theorem C4_counterexample :
    isempty (some "Frobnicator 3000") = false ∧
    isempty (some "1") = false ∧
    transformDatalogger
      { Monitoring_Type := some "Stage", Station_Name := none,
        Project_Number := none, Type_of_Recorder := some "Frobnicator 3000",
        Recorder_Serial__ := some "1", Type_of_Tipping_Bucket := none,
        T_B__Serial__ := none, Type_of_Sensor := none, Sensor_Serial__ := none }
      "No" "No" =
      .error (.valueError
        "Data Logger: Unknown low battery level / units for type Frobnicator 3000") := by
  refine ⟨by decide, by decide, by decide⟩

/-- C4 amended: exactly one of the recorder type/serial pair present is a
pairing error; both absent yields no Data Logger (unless the Location's ADVM
or rainfall monitoring makes one mandatory); both present constructs the
Data Logger iff the stripped type is in the hardwired type table.  For a
Sensor, exactly one present fails and both present always succeeds. -/
theorem C4_amended_device_pairing :
    (∀ (dm : DistrictMonitoring) (hasADVM hasRainfall : String),
      (xor (isempty dm.Type_of_Recorder) (isempty dm.Recorder_Serial__) = true →
        transformDatalogger dm hasADVM hasRainfall =
          .error (.valueError
            ("District Monitoring: Data Logger must have both type and serial number"
              ++ "\nType: " ++ none2blank dm.Type_of_Recorder
              ++ "\nSerial number: " ++ none2blank dm.Recorder_Serial__))) ∧
      (isempty dm.Type_of_Recorder = true → isempty dm.Recorder_Serial__ = true →
        (¬(hasADVM = "Yes" ∨ hasRainfall = "Yes") →
          transformDatalogger dm hasADVM hasRainfall = .ok none) ∧
        ((hasADVM = "Yes" ∨ hasRainfall = "Yes") →
          transformDatalogger dm hasADVM hasRainfall =
            .error (.valueError
              "District Monitoring: Data Logger required for Location with ADVM or rainfall"))) ∧
      (isempty dm.Type_of_Recorder = false → isempty dm.Recorder_Serial__ = false →
        ((transformDatalogger dm hasADVM hasRainfall).isOk = true ↔
          pyStrip (none2blank dm.Type_of_Recorder) ∈ knownDataLoggerTypes))) ∧
    (∀ t s : Option String,
      (xor (isempty t) (isempty s) = true → (mkSensor t s).isOk = false) ∧
      (isempty t = false → isempty s = false → (mkSensor t s).isOk = true)) ∧
    (∀ (dm : DistrictMonitoring) (hasRainfall : String),
      isempty dm.Type_of_Tipping_Bucket = true → isempty dm.T_B__Serial__ = true →
      (hasRainfall ≠ "Yes" → tbSensor dm hasRainfall = .ok []) ∧
      (hasRainfall = "Yes" → tbSensor dm hasRainfall =
        .error (.valueError
          "District Monitoring: Tipping bucket required for Location with rainfall"))) ∧
    (∀ dm : DistrictMonitoring,
      isempty dm.Type_of_Sensor = true → isempty dm.Sensor_Serial__ = true →
      otherSensors dm = .ok []) := by
  refine ⟨?_, ?_, ?_, ?_⟩
  · intro dm hasADVM hasRainfall
    refine ⟨?_, ?_, ?_⟩
    · intro hxor
      cases ht : isempty dm.Type_of_Recorder <;>
        cases hs : isempty dm.Recorder_Serial__ <;>
        simp [ht, hs] at hxor ⊢ <;>
        simp [transformDatalogger, ht, hs]
    · intro ht hs
      constructor
      · intro hflags
        simp [transformDatalogger, ht, hs, hflags]
      · intro hflags
        simp [transformDatalogger, ht, hs, hflags]
    · intro ht hs
      have hred : (transformDatalogger dm hasADVM hasRainfall).isOk =
          (mkDataLogger (some (pyStrip (none2blank dm.Type_of_Recorder)))
            (some (pyStrip (none2blank dm.Recorder_Serial__)))).isOk := by
        simp only [transformDatalogger]
        rw [ht, hs]
        simp only [Bool.not_false, Bool.and_self, if_true]
        cases hdl : mkDataLogger (some (pyStrip (none2blank dm.Type_of_Recorder)))
            (some (pyStrip (none2blank dm.Recorder_Serial__))) with
        | error e => simp [Except.isOk, Except.toBool]
        | ok dl => simp [Except.isOk, Except.toBool]
      rw [hred]
      constructor
      · intro hok
        cases hdl : mkDataLogger (some (pyStrip (none2blank dm.Type_of_Recorder)))
            (some (pyStrip (none2blank dm.Recorder_Serial__))) with
        | error e => rw [hdl] at hok; simp [Except.isOk, Except.toBool] at hok
        | ok dl =>
          obtain ⟨t', lb, ht', _, hlb, _⟩ := mkDataLogger_ok_inv hdl
          have hmem := transform_lowbattery_ok_mem hlb
          have : t' = pyStrip (none2blank dm.Type_of_Recorder) := by
            simpa using ht'.symm
          rw [this, pyStrip_idem] at hmem
          exact hmem
      · intro hmem
        exact mkDataLogger_ok_of_known hs hmem
  · intro t s
    constructor
    · intro hxor
      cases ht : isempty t <;> cases hs : isempty s <;>
        simp [ht, hs] at hxor ⊢ <;>
        simp [mkSensor, ht, hs, Except.isOk, Except.toBool]
    · intro ht hs
      simp [mkSensor, ht, hs, Except.isOk, Except.toBool]
  · intro dm hasRainfall ht hs
    constructor
    · intro hr
      simp [tbSensor, ht, hs, hr]
    · intro hr
      simp [tbSensor, ht, hs, hr]
  · intro dm ht hs
    simp [otherSensors, ht, hs]

/-- C4 witness: the amended theorem applied to concrete inputs for the Data
Logger branches, the Sensor pairing check, and the both-absent tipping-bucket
and other-sensor branches. -/
theorem C4_amended_device_pairing_witness :
    transformDatalogger
      { Monitoring_Type := none, Station_Name := none, Project_Number := none,
        Type_of_Recorder := some "Sutron 9210", Recorder_Serial__ := none,
        Type_of_Tipping_Bucket := none, T_B__Serial__ := none,
        Type_of_Sensor := none, Sensor_Serial__ := none } "No" "No" =
      .error (.valueError
        ("District Monitoring: Data Logger must have both type and serial number"
          ++ "\nType: " ++ "Sutron 9210" ++ "\nSerial number: " ++ "")) ∧
    transformDatalogger
      { Monitoring_Type := none, Station_Name := none, Project_Number := none,
        Type_of_Recorder := none, Recorder_Serial__ := none,
        Type_of_Tipping_Bucket := none, T_B__Serial__ := none,
        Type_of_Sensor := none, Sensor_Serial__ := none } "No" "No" = .ok none ∧
    (mkSensor (some "TB4") none).isOk = false ∧
    tbSensor
      { Monitoring_Type := none, Station_Name := none, Project_Number := none,
        Type_of_Recorder := none, Recorder_Serial__ := none,
        Type_of_Tipping_Bucket := none, T_B__Serial__ := none,
        Type_of_Sensor := none, Sensor_Serial__ := none } "No" = .ok [] ∧
    tbSensor
      { Monitoring_Type := none, Station_Name := none, Project_Number := none,
        Type_of_Recorder := none, Recorder_Serial__ := none,
        Type_of_Tipping_Bucket := none, T_B__Serial__ := none,
        Type_of_Sensor := none, Sensor_Serial__ := none } "Yes" =
      .error (.valueError
        "District Monitoring: Tipping bucket required for Location with rainfall") ∧
    otherSensors
      { Monitoring_Type := none, Station_Name := none, Project_Number := none,
        Type_of_Recorder := none, Recorder_Serial__ := none,
        Type_of_Tipping_Bucket := none, T_B__Serial__ := none,
        Type_of_Sensor := none, Sensor_Serial__ := none } = .ok [] := by
  refine ⟨?_, ?_, ?_, ?_, ?_, ?_⟩
  · exact ((C4_amended_device_pairing.1 _ "No" "No").1 (by decide))
  · exact (((C4_amended_device_pairing.1 _ "No" "No").2.1 (by decide) (by decide)).1
      (by decide))
  · exact ((C4_amended_device_pairing.2.1 (some "TB4") none).1 (by decide))
  · exact ((C4_amended_device_pairing.2.2.1 _ "No" (by decide) (by decide)).1
      (by decide))
  · exact ((C4_amended_device_pairing.2.2.1 _ "Yes" (by decide) (by decide)).2
      (by decide))
  · exact (C4_amended_device_pairing.2.2.2 _ (by decide) (by decide))

/-- Example Location for the C1 loader-driver theorems: one row whose
transaction would write a Location, one Data Logger, one Sensor and one
Measuring Point. -/
def locC1 : Location :=
  { shape := none, NWFID := "008495", Name := some "Gauge X", Project := none,
    FLUWID := none, HasDataLogger := "Yes", HasSensor := "Yes",
    HasMeasuringPoint := "Yes", HasRainfall := "Yes", HasStage := "No",
    HasGroundwater := "No", HasConductivity := "No", HasADVM := "No",
    HasDischarge := "No", HasTemperature := "No", HasWaterQuality := "No",
    Comments := none,
    data_logger := some { type_ := some "OTT Orpheus Mini",
                          SerialNumber := some "123", LowBattery := some 4,
                          LowBatteryUnits := none, IsActive := some "Yes",
                          Comments := none },
    sensors := [{ type_ := some "TB4", SerialNumber := some "9",
                  IsActive := some "Yes", Comments := none }],
    measuring_points :=
      [{ Name := some "Staff Gauge A",
         AquariusID := "12345678123456781234567812345678",
         Description := none, Elevation := some 1, IsActive := some "Yes",
         DisplayOrder := none, Comments := none }],
    rejected_measuring_point_count := 0 }

/-- All-zero output metrics, as at the start of a run. -/
def m0C1 : OutputMetrics :=
  { location_succeeded := 0, location_failed := 0, data_logger_succeeded := 0,
    data_logger_failed := 0, sensor_succeeded := 0, sensor_failed := 0,
    measuring_point_succeeded := 0, measuring_point_failed := 0 }

/-- C1 counterexample: when the Location write itself fails, the driver rolls
back and moves on, but it increments only the Location failure counter — the
Data Logger, Sensor and Measuring Point failure counters stay 0 even though
those entities were pending in the same transaction, contrary to the claim. -/
theorem C1_counterexample :
    locC1.data_logger.isSome = true ∧
    locC1.sensors.length = 1 ∧
    locC1.measuring_points.length = 1 ∧
    processRow locC1
      { locationOk := false, dataLoggerOk := true, sensorsOk := true,
        measuringPointsOk := true } m0C1 =
      ({ location_succeeded := 0, location_failed := 1,
         data_logger_succeeded := 0, data_logger_failed := 0,
         sensor_succeeded := 0, sensor_failed := 0,
         measuring_point_succeeded := 0, measuring_point_failed := 0 }, false) := by
  refine ⟨by decide, by decide, by decide, by decide⟩

/-- C1 amended: any write-step failure rolls the transaction back (the row is
not committed) and the driver proceeds to the next row; a Data Logger,
Sensors or Measuring Points write failure increments the failure counters of
all four entity kinds (cascading), but a Location write failure increments
only the Location failure counter; when every pending write succeeds the
transaction commits and the success counters advance. -/
theorem C1_amended_write_failure_metrics :
    ∀ (loc : Location) (w : WriteOutcome) (m : OutputMetrics),
      (w.locationOk = false →
        processRow loc w m =
          ({ m with location_failed := m.location_failed + 1 }, false)) ∧
      (w.locationOk = true → loc.data_logger.isSome = true →
        w.dataLoggerOk = false →
        processRow loc w m = (cascadeFail loc m, false)) ∧
      (w.locationOk = true →
        (loc.data_logger.isSome = false ∨ w.dataLoggerOk = true) →
        0 < loc.sensors.length → w.sensorsOk = false →
        processRow loc w m = (cascadeFail loc m, false)) ∧
      (w.locationOk = true →
        (loc.data_logger.isSome = false ∨ w.dataLoggerOk = true) →
        (loc.sensors.length = 0 ∨ w.sensorsOk = true) →
        0 < loc.measuring_points.length → w.measuringPointsOk = false →
        processRow loc w m = (cascadeFail loc m, false)) ∧
      (w.locationOk = true →
        (loc.data_logger.isSome = false ∨ w.dataLoggerOk = true) →
        (loc.sensors.length = 0 ∨ w.sensorsOk = true) →
        (loc.measuring_points.length = 0 ∨ w.measuringPointsOk = true) →
        processRow loc w m =
          ({ m with location_succeeded := m.location_succeeded + 1,
                    data_logger_succeeded := m.data_logger_succeeded +
                      (if loc.data_logger.isSome then 1 else 0),
                    sensor_succeeded := m.sensor_succeeded + loc.sensors.length,
                    measuring_point_succeeded := m.measuring_point_succeeded +
                      loc.measuring_points.length }, true)) := by
  intro loc w m
  refine ⟨?_, ?_, ?_, ?_, ?_⟩
  · intro h
    simp [processRow, h]
  · intro h1 h2 h3
    simp [processRow, h1, h2, h3]
  · intro h1 hdl hsen h4
    rcases hdl with hdl | hdl <;>
      simp [processRow, h1, hdl, h4, hsen, Nat.pos_iff_ne_zero.mp hsen]
  · intro h1 hdl hsen hmp h5
    rcases hdl with hdl | hdl <;> rcases hsen with hsen | hsen <;>
      simp [processRow, h1, hdl, hsen, hmp, h5, Nat.pos_iff_ne_zero.mp hmp]
  · intro h1 hdl hsen hmp
    rcases hdl with hdl | hdl <;> rcases hsen with hsen | hsen <;>
      rcases hmp with hmp | hmp <;>
      simp [processRow, h1, hdl, hsen, hmp]

/-- C1 witness: the amended theorem applied to a Data Logger write failure
(cascading) and to the no-failure commit path at a concrete row. -/
theorem C1_amended_write_failure_metrics_witness :
    processRow locC1
      { locationOk := true, dataLoggerOk := false, sensorsOk := true,
        measuringPointsOk := true } m0C1 = (cascadeFail locC1 m0C1, false) ∧
    (processRow locC1
      { locationOk := true, dataLoggerOk := true, sensorsOk := true,
        measuringPointsOk := true } m0C1).2 = true := by
  constructor
  · exact (C1_amended_write_failure_metrics locC1
      { locationOk := true, dataLoggerOk := false, sensorsOk := true,
        measuringPointsOk := true } m0C1).2.1 (by decide) (by decide) (by decide)
  · rw [(C1_amended_write_failure_metrics locC1
      { locationOk := true, dataLoggerOk := true, sensorsOk := true,
        measuringPointsOk := true } m0C1).2.2.2.2 (by decide)
        (Or.inr (by decide)) (Or.inr (by decide)) (Or.inr (by decide))]

/-- C2: for every source row, `has-stage` is `"Yes"` exactly when the
monitoring-type value contains `"stage"` (case-insensitive) but not
`"d-stage"`; the flag is otherwise `"No"`; and on the concrete input
`"Rainfall, Stage, D-Stage"` the exclusion wins (`has-rainfall` is `"Yes"`,
`has-stage` is `"No"`). -/
theorem C2_hasstage_exclusion :
    (∀ mt : Option String,
      (transform_hasstage mt = "Yes" ↔
        ("stage".toList <:+: (pyLower (none2blank mt)).toList ∧
         ¬ "d-stage".toList <:+: (pyLower (none2blank mt)).toList)) ∧
      (transform_hasstage mt = "Yes" ∨ transform_hasstage mt = "No")) ∧
    transform_hasrainfall (some "Rainfall, Stage, D-Stage") = "Yes" ∧
    transform_hasstage (some "Rainfall, Stage, D-Stage") = "No" := by
  refine ⟨fun mt => ⟨?_, ?_⟩, by decide, by decide⟩
  · simp only [transform_hasstage, pyIn]
    split_ifs with h1 h2 <;>
      simp only [decide_eq_true_eq] at h1 ⊢ <;>
      first
        | (constructor
           · intro h; exact absurd h (by decide)
           · rintro ⟨_, hno⟩; exact absurd h1 hno)
        | (simp only [decide_eq_true_eq] at h2; tauto)
  · simp only [transform_hasstage]
    split_ifs <;> simp

/-- The `SourceData.__init__` loop succeeds iff the pending column names are
new and mutually distinct. -/
lemma sourceDataAdd_ok_iff {α : Type} :
    ∀ (l acc : List (String × α)), (acc.map Prod.fst).Nodup →
      ((sourceDataAdd acc l).isOk = true ↔
        (acc.map Prod.fst ++ l.map Prod.fst).Nodup) := by
  intro l
  induction l with
  | nil =>
    intro acc hacc
    simpa [sourceDataAdd, Except.isOk, Except.toBool] using hacc
  | cons p rest ih =>
    intro acc hacc
    obtain ⟨n, v⟩ := p
    by_cases hc : (acc.map Prod.fst).contains n = true
    · have hn : n ∈ acc.map Prod.fst := by
        simpa [List.contains, List.elem_iff] using hc
      simp only [sourceDataAdd, hc, if_true]
      constructor
      · intro h
        simp [Except.isOk, Except.toBool] at h
      · intro h
        rw [List.nodup_append] at h
        exact absurd (h.2.2 hn (by simp)) (by simp)
    · have hn : n ∉ acc.map Prod.fst := by
        simpa [List.contains, List.elem_iff] using hc
      have hacc' : ((acc ++ [(n, v)]).map Prod.fst).Nodup := by
        rw [List.map_append, List.nodup_append]
        refine ⟨hacc, by simp, ?_⟩
        intro x hx hx'
        simp only [List.map_cons, List.map_nil, List.mem_singleton] at hx'
        subst hx'
        exact hn hx
      simp only [sourceDataAdd, hc, Bool.false_eq_true, if_false]
      rw [ih (acc ++ [(n, v)]) hacc', List.map_append]
      have : (acc.map Prod.fst ++ [(n, v)].map Prod.fst) ++ rest.map Prod.fst =
          acc.map Prod.fst ++ ((n, v) :: rest).map Prod.fst := by
        simp
      rw [this]

/-- The `SourceData.__init__` loop returns the accumulated pairs. -/
lemma sourceDataAdd_ok_val {α : Type} :
    ∀ (l acc r : List (String × α)), sourceDataAdd acc l = .ok r →
      r = acc ++ l := by
  intro l
  induction l with
  | nil =>
    intro acc r h
    simp only [sourceDataAdd, Except.ok.injEq] at h
    simp [← h]
  | cons p rest ih =>
    intro acc r h
    obtain ⟨n, v⟩ := p
    by_cases hc : (acc.map Prod.fst).contains n = true
    · simp only [sourceDataAdd, hc, if_true] at h
      exact absurd h (by simp)
    · simp only [sourceDataAdd, hc, Bool.false_eq_true, if_false] at h
      have := ih (acc ++ [(n, v)]) r h
      simpa using this

/-- `find?` on pairs with distinct first components returns the unique
matching pair. -/
lemma find?_eq_of_nodup {α : Type} :
    ∀ (l : List (String × α)) (n : String) (v : α),
      (l.map Prod.fst).Nodup → (n, v) ∈ l →
      (l.find? fun p => p.1 == n) = some (n, v) := by
  intro l
  induction l with
  | nil => intro n v _ hm; simp at hm
  | cons p rest ih =>
    intro n v hnd hm
    obtain ⟨m, w⟩ := p
    rw [List.map_cons, List.nodup_cons] at hnd
    rcases List.mem_cons.mp hm with heq | htail
    · injection heq with h1 h2
      subst h1; subst h2
      simp
    · have hne : m ≠ n := by
        intro heq
        subst heq
        exact hnd.1 (List.mem_map.mpr ⟨(m, v), htail, rfl⟩)
      rw [List.find?_cons_of_neg _ (by simpa using hne)]
      exact ih n v hnd.2 htail

/-- C8 counterexample: the photo loader's `IndexRecord` accepts duplicate
column names without any error — construction succeeds and the later value
silently wins — contradicting the claim that every record wrapper of the
pipeline rejects duplicates. -/
theorem C8_counterexample :
    mkIndexRecord ["a", "a"] [(1 : Nat), 2] = [("a", 1), ("a", 2)] ∧
    indexRecordGet (mkIndexRecord ["a", "a"] [(1 : Nat), 2]) "a" = some 2 := by
  refine ⟨by decide, by decide⟩

/-- C8 amended: the data loader's `SourceData` wrapper fails with a
uniqueness error exactly when a column name repeats, and otherwise each value
is retrievable by its column name; the photo loader's `IndexRecord` wrapper
performs no duplicate check — construction always succeeds and the last
assignment to a repeated name wins. -/
theorem C8_amended_record_wrappers :
    (∀ (α : Type) (fields : List String) (values : List α),
      fields.length = values.length →
      ((mkSourceData fields values).isOk = true ↔ fields.Nodup) ∧
      (∀ rec, mkSourceData fields values = .ok rec →
        rec = fields.zip values ∧
        ∀ n v, (n, v) ∈ fields.zip values → sourceDataGet rec n = some v)) ∧
    (∀ (α : Type) (fields : List String) (values : List α) (n : String) (v : α),
      fields.length = values.length →
      indexRecordGet (mkIndexRecord (fields ++ [n]) (values ++ [v])) n = some v) := by
  constructor
  · intro α fields values hlen
    have hfst : (fields.zip values).map Prod.fst = fields :=
      List.map_fst_zip fields values (le_of_eq hlen)
    constructor
    · have := sourceDataAdd_ok_iff (fields.zip values) [] (by simp)
      rw [mkSourceData, this]
      simp [hfst]
    · intro rec hrec
      have hval : rec = fields.zip values := by
        simpa using sourceDataAdd_ok_val (fields.zip values) [] rec hrec
      refine ⟨hval, ?_⟩
      intro n v hm
      have hok : (mkSourceData fields values).isOk = true := by
        rw [hrec]; rfl
      have hnd : fields.Nodup := by
        have := sourceDataAdd_ok_iff (fields.zip values) [] (by simp)
        rw [mkSourceData, this] at hok
        simpa [hfst] using hok
      have : ((fields.zip values).map Prod.fst).Nodup := by rwa [hfst]
      unfold sourceDataGet
      rw [hval, find?_eq_of_nodup (fields.zip values) n v this hm]
      simp
  · intro α fields values n v hlen
    unfold indexRecordGet mkIndexRecord
    rw [List.zip_append hlen]
    rw [List.filter_append]
    have hzip : ([n].zip [v]) = [(n, v)] := rfl
    rw [hzip]
    have hsing : (([(n, v)] : List (String × α)).filter fun p => p.1 == n) =
        [(n, v)] := by simp
    rw [hsing, List.getLast?_append_of_ne_nil _ (by simp)]
    simp

/-- C8 witness: the amended theorem applied to concrete wrappers. -/
theorem C8_amended_record_wrappers_witness :
    (mkSourceData ["a", "b"] [(1 : Nat), 2]).isOk = true ∧
    sourceDataGet [("a", (1 : Nat)), ("b", 2)] "b" = some 2 ∧
    indexRecordGet (mkIndexRecord ["a", "a"] [(3 : Nat), 4]) "a" = some 4 := by
  refine ⟨?_, ?_, ?_⟩
  · exact ((C8_amended_record_wrappers.1 Nat ["a", "b"] [1, 2] (by decide)).1).mpr
      (by decide)
  · exact ((C8_amended_record_wrappers.1 Nat ["a", "b"] [1, 2] (by decide)).2
      [("a", 1), ("b", 2)] (by decide)).2 "b" 2 (by decide)
  · exact C8_amended_record_wrappers.2 Nat ["a"] [3] "a" 4 (by decide)

/-- C7: the derived Metrics total is `None` exactly when both the succeeded
and failed counters are `None`, and otherwise equals their sum with a `None`
counter treated as zero; the total is computed by `getTotal` on read and has
no stored field in `Metrics`. -/
theorem C7_metrics_total :
    ∀ succeeded failed : Option Int,
      (getTotal succeeded failed = none ↔ succeeded = none ∧ failed = none) ∧
      (succeeded ≠ none ∨ failed ≠ none →
        getTotal succeeded failed = some (succeeded.getD 0 + failed.getD 0)) := by
  intro s f
  unfold getTotal
  constructor
  · split_ifs with h
    · simp [h]
    · simp [h]
  · intro hne
    split_ifs with h
    · tauto
    · rfl

/-- C7 witness: concrete evaluations of `getTotal` through the theorem. -/
theorem C7_metrics_total_witness :
    getTotal (some 2) none = some 2 ∧ getTotal none none = none := by
  constructor
  · exact (C7_metrics_total (some 2) none).2 (Or.inl (by decide))
  · exact ((C7_metrics_total none none).1).mpr ⟨rfl, rfl⟩

/-- Every target of one photo contributes exactly one attachment row or one
collected error. -/
lemma loadAttachments_length :
    ∀ (targets : List String) (store : List AttachRow) (table fname kw : String),
      (loadAttachments store targets table fname kw).2.length +
        (loadAttachments store targets table fname kw).1.length =
        store.length + targets.length := by
  intro targets
  induction targets with
  | nil => intro store table fname kw; simp [loadAttachments]
  | cons g rest ih =>
    intro store table fname kw
    by_cases hex : attachExists store g fname = true
    · simp only [loadAttachments, checkTarget, hex, if_true, List.length_cons]
      have := ih store table fname kw
      omega
    · simp only [loadAttachments, checkTarget, hex, Bool.false_eq_true, if_false,
        List.length_cons]
      have := ih (store ++ [({ rel_globalid := g, att_name := fname, keywords := kw } : AttachRow)]) table fname kw
      simp only [List.length_append, List.length_cons, List.length_nil] at this
      omega

/-- Loading never adds a row for a parent/file-name pair that already has
one: its match count is preserved. -/
lemma loadAttachments_count_preserved :
    ∀ (targets : List String) (store : List AttachRow) (g table fname kw : String),
      attachExists store g fname = true →
      countAttach (loadAttachments store targets table fname kw).2 g fname =
        countAttach store g fname := by
  intro targets
  induction targets with
  | nil => intro store g table fname kw _; simp [loadAttachments]
  | cons h rest ih =>
    intro store g table fname kw hex
    by_cases hh : attachExists store h fname = true
    · simp only [loadAttachments, checkTarget, hh, if_true]
      exact ih store g table fname kw hex
    · have hne : h ≠ g := by
        intro heq; subst heq; exact hh hex
      simp only [loadAttachments, checkTarget, hh, Bool.false_eq_true, if_false]
      have hex' : attachExists (store ++ [({ rel_globalid := h, att_name := fname, keywords := kw } : AttachRow)]) g fname = true := by
        unfold attachExists at hex ⊢
        rw [List.any_append]
        simp [hex]
      rw [ih _ g table fname kw hex']
      unfold countAttach
      rw [List.filter_append]
      have : (([{ rel_globalid := h, att_name := fname, keywords := kw }] :
          List AttachRow).filter fun r =>
            r.rel_globalid == g && r.att_name == fname) = [] := by
        simp [hne]
      rw [this, List.append_nil]

/-- A target whose parent row already carries the same file name produces at
least one collected error. -/
lemma loadAttachments_err_of_dup :
    ∀ (targets : List String) (store : List AttachRow) (g table fname kw : String),
      g ∈ targets → attachExists store g fname = true →
      (loadAttachments store targets table fname kw).1 ≠ [] := by
  intro targets
  induction targets with
  | nil => intro store g table fname kw hg _; simp at hg
  | cons h rest ih =>
    intro store g table fname kw hg hex
    by_cases hh : attachExists store h fname = true
    · simp [loadAttachments, checkTarget, hh]
    · have hne : h ≠ g := by
        intro heq; subst heq; exact hh hex
      simp only [loadAttachments, checkTarget, hh, Bool.false_eq_true, if_false]
      have hg' : g ∈ rest := by
        rcases List.mem_cons.mp hg with heq | htail
        · exact absurd heq.symm hne
        · exact htail
      have hex' : attachExists (store ++ [({ rel_globalid := h, att_name := fname, keywords := kw } : AttachRow)]) g fname = true := by
        unfold attachExists at hex ⊢
        rw [List.any_append]
        simp [hex]
      exact ih _ g table fname kw hg' hex'

/-- C9: re-loading a photo whose attachment already exists on a target parent
row reports a duplicate error for that target without inserting a second row
for it, and every other target of the same photo is still processed (each
target yields exactly one inserted row or one collected error). -/
theorem C9_attachment_duplicate_idempotence :
    ∀ (store : List AttachRow) (targets : List String) (table fname kw : String),
      ((loadAttachments store targets table fname kw).2.length +
        (loadAttachments store targets table fname kw).1.length =
        store.length + targets.length) ∧
      (∀ g, g ∈ targets → attachExists store g fname = true →
        (loadAttachments store targets table fname kw).1 ≠ [] ∧
        countAttach (loadAttachments store targets table fname kw).2 g fname =
          countAttach store g fname) := by
  intro store targets table fname kw
  refine ⟨loadAttachments_length targets store table fname kw, ?_⟩
  intro g hg hex
  exact ⟨loadAttachments_err_of_dup targets store g table fname kw hg hex,
    loadAttachments_count_preserved targets store g table fname kw hex⟩

/-- C9 witness: one photo with two targets, one of which already has an
attachment with the same file name — the duplicate target errors and keeps a
single row, the other target still gets its insert. -/
theorem C9_attachment_duplicate_idempotence_witness :
    ((loadAttachments
        [{ rel_globalid := "G1", att_name := "p.jpg", keywords := "Location_image" }]
        ["G1", "G2"] "hydro.location" "p.jpg" "Location_image").2.length +
      (loadAttachments
        [{ rel_globalid := "G1", att_name := "p.jpg", keywords := "Location_image" }]
        ["G1", "G2"] "hydro.location" "p.jpg" "Location_image").1.length = 3) ∧
    (loadAttachments
        [{ rel_globalid := "G1", att_name := "p.jpg", keywords := "Location_image" }]
        ["G1", "G2"] "hydro.location" "p.jpg" "Location_image").1 ≠ [] ∧
    countAttach
      (loadAttachments
        [{ rel_globalid := "G1", att_name := "p.jpg", keywords := "Location_image" }]
        ["G1", "G2"] "hydro.location" "p.jpg" "Location_image").2 "G1" "p.jpg" =
      countAttach
        [{ rel_globalid := "G1", att_name := "p.jpg", keywords := "Location_image" }]
        "G1" "p.jpg" := by
  have h := C9_attachment_duplicate_idempotence
    [{ rel_globalid := "G1", att_name := "p.jpg", keywords := "Location_image" }]
    ["G1", "G2"] "hydro.location" "p.jpg" "Location_image"
  have h2 := h.2 "G1" (by decide) (by decide)
  exact ⟨h.1, h2.1, h2.2⟩

end Hydro
